import Mathlib

/-!
Verification development for modpack-helper.py: a shallow embedding of the
script in Lean 4, together with theorems settling the specification claims
about it.

Modelling conventions:
* A filesystem tree is the inductive `Entry`.  A directory is a spine of
  `dcons` cells (one per child, in order) ending in `dnil`; the helper
  `dirOf` builds a directory from an ordered association list, which is the
  form used in all statements.  Paths are lists of path components
  (`Path.parts` of the corresponding Python `Path`).
* Network and subprocess effects are oracles: functions from the request to
  an `Except Exn` result, supplied as parameters.  `Exn` models the Python
  exception taxonomy that the script distinguishes.
* Machine integers do not occur in the script; file contents are opaque
  `String`s.
* Functions that the script defines are embedded under their source names
  (`copytree`, `download_mod`, `update_forge`, `run`, ...), with the source
  lines referenced in comments.  Recursion into subtrees is bounded by an
  explicit fuel argument where Lean needs one; the supplied fuel is provably
  sufficient (each recursive call consumes at least one unit).
-/

/-- Exception taxonomy of the script (section 7 of the design): `http` is
`urllib.error.HTTPError` (carries status code and offending URL), `net` any
other transfer failure, `os` a filesystem error (`OSError`), `subprocessFailure`
a non-zero installer exit, and `typeErrorLoggingFile` the `TypeError` raised by
`logging.warning(msg, file=sys.stderr)` on line 172 (the `logging` module
rejects a `file` keyword argument). -/
inductive Exn where
  | http (code : Nat) (url : String)
  | net (url : String)
  | os
  | subprocessFailure (exitCode : Nat)
  | typeErrorLoggingFile
deriving Repr, DecidableEq

/-- A filesystem tree.  `file c` is a regular file with content `c`.  A
directory is encoded as its ordered children spine: `dnil` is the empty
directory and `dcons name child rest` is a directory whose first child is
`name ↦ child` and whose remaining children form `rest` (always another
directory spine). -/
inductive Entry where
  | file (content : String)
  | dnil
  | dcons (name : String) (child : Entry) (rest : Entry)
deriving Repr, DecidableEq

/-- Build a directory from an ordered association list of children. -/
def dirOf : List (String × Entry) → Entry
  | [] => .dnil
  | (n, e) :: rest => .dcons n e (dirOf rest)

/-- Look a name up in the children spine of a directory. -/
def lookupChild : Entry → String → Option Entry
  | .dcons m x rest, n => if m == n then some x else lookupChild rest n
  | _, _ => none

/-- Replace the child bound to `n`, or append it if absent (directory entries
keep their creation order, like a real directory listing). -/
def setChild : Entry → String → Entry → Entry
  | .dcons m x rest, n, e => if m == n then .dcons n e rest else .dcons m x (setChild rest n e)
  | .dnil, n, e => .dcons n e .dnil
  | .file _, n, e => .dcons n e .dnil

/-- Remove the child bound to `n`, if present. -/
def removeChild : Entry → String → Entry
  | .dcons m x rest, n => if m == n then rest else .dcons m x (removeChild rest n)
  | t, _ => t

/-- Resolve a path to the entry it denotes, if any (`Path.exists` is
`(get ..).isSome`). -/
def Entry.get : Entry → List String → Option Entry
  | t, [] => some t
  | t, n :: p => match lookupChild t n with
    | some c => c.get p
    | none => none

/-- Overwrite the entry at a path, creating missing intermediate directories.
At the call sites below the intermediate components always exist or are
legitimately created (`ZipFile.extractall` creates parents). -/
def setAt : Entry → List String → Entry → Entry
  | _, [], e => e
  | t, n :: p, e => setChild t n (setAt ((lookupChild t n).getD .dnil) p e)

/-- Remove the subtree at a path (`shutil.rmtree`); removing the root or a
missing path leaves the tree unchanged (unreachable at the call sites: the
script only removes paths it has checked to exist). -/
def removeAt : Entry → List String → Entry
  | t, [] => t
  | t, [n] => removeChild t n
  | t, n :: p => match lookupChild t n with
    | some c => setChild t n (removeAt c p)
    | none => t

/-- Rename `src` to `dst` (`Path.replace`); at the call site the destination
was just removed, so no destination handling is needed.  A missing source
raises in Python and is unreachable here. -/
def renameAt (t : Entry) (src dst : List String) : Entry :=
  match t.get src with
  | some e => setAt (removeAt t src) dst e
  | none => t

/-- Create a single directory (`Path.mkdir`, no parents).  At the call sites
the path never exists (Python would raise `FileExistsError`), so the guard is
only for totality. -/
def mkdirAt (t : Entry) (p : List String) : Entry :=
  if (t.get p).isSome then t else setAt t p .dnil

/-- Create a directory chain (`os.makedirs`), keeping existing directories and
their children. -/
def mkdirp : Entry → List String → Entry
  | t, [] => t
  | t, n :: p => setChild t n (mkdirp ((lookupChild t n).getD .dnil) p)

/-- Write a regular file (`open(path, "wb")` plus the copy loop, or
`shutil.copy2` to a non-directory destination). -/
def writeFile (t : Entry) (p : List String) (c : String) : Entry :=
  setAt t p (.file c)

/-- Body of `copytree` (modpack-helper.py lines 117-126) for one directory
listing.  `src` is the source directory spine (`os.listdir` order), `dst` the
destination path inside `t`.  For an item that is a directory the code calls
`copytree(s, d)` with the `override` parameter left at its default `True`
(line 124); the recursive call below therefore passes `true`, not `override`.
For an item that is a file, `shutil.copy2(s, d)` runs only when `override` is
set or the destination does not exist (line 125); `copy2` into an existing
directory copies into that directory under the same basename. -/
def copyItems : Entry → Entry → List String → Bool → Entry
  | .file _, t, _, _ => t
  | .dnil, t, _, _ => t
  | .dcons n e rest, t, dst, override =>
    let t1 := match e with
      | .file c =>
        let d := dst ++ [n]
        if override || (t.get d).isNone then
          match t.get d with
          | some (.dcons _ _ _) => writeFile t (d ++ [n]) c
          | some .dnil => writeFile t (d ++ [n]) c
          | _ => writeFile t d c
        else t
      | _ =>
        let d := dst ++ [n]
        let t2 := if (t.get d).isSome then t else mkdirp t d
        copyItems e t2 d true
    copyItems rest t1 dst override

/-- copytree (modpack-helper.py lines 117-126): create the destination if
missing (`os.makedirs`, lines 118-119), then copy every item of the source
listing.  `src` is the tree rooted at the source path; the three call sites in
`run` never overlap source and destination, so reading the source as a
snapshot is faithful. -/
def copytree (src : Entry) (t : Entry) (dst : List String) (override : Bool) : Entry :=
  let t1 := if (t.get dst).isSome then t else mkdirp t dst
  copyItems src t1 dst override

/-- Name of the backup location: `d.with_suffix('.bak')` (line 188); the
subtree names `mods` and `config` have no suffix, so `.bak` is appended. -/
def backupName (d : String) : String := d ++ ".bak"

/-- One iteration of the backup loop (lines 189-195): if the live subtree
exists, remove any stale backup, rename the live subtree to the backup
location, and recreate an empty live subtree; otherwise just create the live
subtree. -/
def backupOne (b : Entry) (d : String) : Entry :=
  let b1 :=
    if (b.get [d]).isSome then
      let b2 := if (b.get [backupName d]).isSome then removeAt b [backupName d] else b
      renameAt b2 [d] [backupName d]
    else b
  mkdirAt b1 [d]

/-- The whole backup step (lines 186-195); the dict iterates insertion order,
`mods` then `config`. -/
def backupStep (b : Entry) : Entry :=
  backupOne (backupOne b "mods") "config"

/-- Python string comparison on one character: by code point. -/
def charLtB (c d : Char) : Bool := Nat.blt c.toNat d.toNat

/-- Python string comparison (`str.__lt__`): lexicographic by code point, a
proper prefix is smaller. -/
def dataLt : List Char → List Char → Bool
  | [], [] => false
  | [], _ :: _ => true
  | _ :: _, [] => false
  | c :: cs, d :: ds => charLtB c d || (c == d && dataLt cs ds)

def strLt (a b : String) : Bool := dataLt a.data b.data

/-- Python `PurePath.__lt__`: list comparison of the path parts
(`self._cparts < other._cparts`; on POSIX the parts are compared verbatim).
List comparison is lexicographic with a proper prefix smaller. -/
def partsLt : List String → List String → Bool
  | [], [] => false
  | [], _ :: _ => true
  | _ :: _, [] => false
  | a :: as, b :: bs => strLt a b || (a == b && partsLt as bs)

/-- Python `Path(entry) > overrides` (line 217) is `partsGt entry.parts ov.parts`. -/
def partsGt (a b : List String) : Bool := partsLt b a

/-- Structural containment: `isUnder ov p` holds when `p` lies strictly below
the directory `ov` (`ov` is a proper prefix of `p`).  This is the "falls under
the overrides root" notion of the specification, stated independently of the
code. -/
def isUnder : List String → List String → Bool
  | [], [] => false
  | [], _ :: _ => true
  | _ :: _, [] => false
  | a :: as, b :: bs => a == b && isUnder as bs

/-- A token of the regular expression that `fnmatch.translate` builds from a
glob pattern: `star` for `*` (any sequence), `any` for `?` (any single
character), `lit` for an escaped literal character, `cls` for a character
class `[...]` with its optional `!` negation and raw body. -/
inductive Tok where
  | star
  | any
  | lit (c : Char)
  | cls (negated : Bool) (body : List Char)
deriving Repr, DecidableEq

/-- Scan a class body up to the closing `]`, returning the body and the rest
of the pattern; `none` when the class is unterminated. -/
def splitCls : List Char → Option (List Char × List Char)
  | [] => none
  | c :: rest =>
    if c == ']' then some ([], rest)
    else match splitCls rest with
      | some (b, r) => some (c :: b, r)
      | none => none

/-- After a `[`, `fnmatch.translate` takes an optional leading `!` as negation
and then lets an immediate `]` stand for itself inside the body, scanning up
to the next `]`. -/
def clsScan : List Char → Option (Bool × List Char × List Char)
  | '!' :: ']' :: t => (splitCls t).map (fun br => (true, ']' :: br.1, br.2))
  | '!' :: t => (splitCls t).map (fun br => (true, br.1, br.2))
  | ']' :: t => (splitCls t).map (fun br => (false, ']' :: br.1, br.2))
  | t => (splitCls t).map (fun br => (false, br.1, br.2))

/-- Tokenizer for glob patterns, mirroring `fnmatch.translate`: `*` becomes
`.*`, `?` becomes `.`, `[...]` a character class (an unterminated `[` is the
literal `[`, with scanning resuming right after it), anything else an escaped
literal.  Recursion is bounded by fuel; every step consumes at least one
pattern character, so pattern length is sufficient fuel. -/
def translatePatF : Nat → List Char → List Tok
  | 0, _ => []
  | _ + 1, [] => []
  | fuel + 1, c :: ps =>
    if c == '*' then .star :: translatePatF fuel ps
    else if c == '?' then .any :: translatePatF fuel ps
    else if c == '[' then
      match clsScan ps with
      | some (neg, body, rest) => .cls neg body :: translatePatF fuel rest
      | none => .lit '[' :: translatePatF fuel ps
    else .lit c :: translatePatF fuel ps

def translatePat (pat : List Char) : List Tok := translatePatF pat.length pat

/-- Membership in a regex character class body: `a-b` is a code point range,
anything else a literal (a trailing or leading `-` is literal, matching the
regex semantics). -/
def memberRanges : List Char → Char → Bool
  | [], _ => false
  | a :: '-' :: b :: rest, c =>
    (Nat.ble a.toNat c.toNat && Nat.ble c.toNat b.toNat) || memberRanges rest c
  | a :: rest, c => a == c || memberRanges rest c

/-- Whether one token accepts one character. -/
def tokMatches : Tok → Char → Bool
  | .star, _ => true
  | .any, _ => true
  | .lit d, c => d == c
  | .cls neg body, c => memberRanges body c != neg

/-- Anchored regex matching of the token list against the whole string
(`translate` wraps the pattern in `(?s:...)\Z`, so `.` accepts every character
and the match must span the string).  Fuel-bounded; every recursive call
shrinks tokens plus input by at least one, so their combined length plus one
is sufficient fuel. -/
def reMatchF : Nat → List Tok → List Char → Bool
  | 0, _, _ => false
  | fuel + 1, ts, s =>
    match ts with
    | [] => s.isEmpty
    | .star :: ts2 =>
      reMatchF fuel ts2 s ||
        (match s with
          | [] => false
          | _ :: cs => reMatchF fuel (.star :: ts2) cs)
    | t :: ts2 =>
      match s with
      | [] => false
      | c :: cs => tokMatches t c && reMatchF fuel ts2 cs

def reMatch (ts : List Tok) (s : List Char) : Bool :=
  reMatchF (ts.length + s.length + 1) ts s

/-- fnmatch.fnmatch(name, pat): `os.path.normcase` is the identity on POSIX,
after which the translated pattern is matched against the whole name. -/
def fnmatch (name pat : String) : Bool := reMatch (translatePat pat.data) name.data

/-- The exclusion test of `download_mod` (modpack-helper.py line 76):
`blacklist and any(fnmatch.fnmatch(filename, p) for p in blacklist)`.  A
missing (`None`) or empty blacklist is falsy and excludes nothing. -/
def isExcluded (filename : String) (blacklist : Option (List String)) : Bool :=
  match blacklist with
  | none => false
  | some bl => !bl.isEmpty && bl.any (fun p => fnmatch filename p)

/-- One entry of `manifest['files']`: a CurseForge project/file identifier
pair. -/
structure ModSpec where
  projectID : Nat
  fileID : Nat
deriving Repr, DecidableEq

/-- One entry of `manifest.get('directDownload', [])`; either field may be
missing (`entry.get(x)` returning `None`, lines 170-171). -/
structure DirectEntry where
  url : Option String
  filename : Option String
deriving Repr, DecidableEq

/-- One entry of `minecraft.modLoaders`. -/
structure LoaderEntry where
  id : String
deriving Repr, DecidableEq

/-- The `minecraft` object of the manifest; `version` may be absent. -/
structure MinecraftSpec where
  version : Option String
  modLoaders : List LoaderEntry
deriving Repr, DecidableEq

/-- The parsed `manifest.json` (read once at run start, line 148, and never
mutated).  `overrides` carries the path parts of the declared overrides root;
a missing `minecraft` object and an empty one behave identically, so both are
`none`. -/
structure Manifest where
  name : String
  version : String
  files : List ModSpec
  directDownload : List DirectEntry
  minecraft : Option MinecraftSpec
  overrides : Option (List String)
deriving Repr, DecidableEq

/-- The command line options `run` reads.  `exclude` is the blacklist already
read from the pattern file, one glob per line (lines 151-156); `none` models a
missing `-e` option. -/
structure Args where
  keep_forge : Bool
  keep_config : Bool
  exclude : Option (List String)
  forge_symlink : Option String
deriving Repr, DecidableEq

/-- Network and subprocess oracles.  `resolve` stands for the
`urlopen(mod_url(spec))` redirect chase of `download_mod` (lines 72-74),
yielding the final filename (`Path(conn.url).name`) and the transferred bytes;
`fetch` the direct URL transfer of `download` (lines 48-66); `forgeDl` the
installer download of `update_forge` (line 93, the result is the installer
filename); `forgeRun` the installer subprocess exit (line 106);
`forgeUniversalExists` the `forge.exists()` test on the file the installer
itself wrote (line 109), which is outside the modelled tree. -/
structure Oracle where
  resolve : ModSpec → Except Exn (String × String)
  fetch : String → Except Exn String
  forgeDl : String → Except Exn String
  forgeRun : String → Except Exn Unit
  forgeUniversalExists : Bool

/-- Result of one download task: an error, `some (filename, content)` for a
stored file, or `none` for a blacklisted (excluded) mod. -/
def TaskOutcome : Type := Except Exn (Option (String × String))

/-- download_mod (modpack-helper.py lines 69-80): resolve the mod page
redirects to learn the final filename, return `None` without transferring when
the filename matches the blacklist, otherwise download into the store. -/
def download_mod (resolve : ModSpec → Except Exn (String × String)) (spec : ModSpec)
    (blacklist : Option (List String)) : TaskOutcome :=
  match resolve spec with
  | .error e => .error e
  | .ok (filename, content) =>
    if isExcluded filename blacklist then .ok none
    else .ok (some (filename, content))

/-- download (modpack-helper.py lines 48-66) as used for a direct download
task (line 174): transfer the URL and store it under the given filename. -/
def download (fetch : String → Except Exn String) (url filename : String) : TaskOutcome :=
  match fetch url with
  | .ok content => .ok (some (filename, content))
  | .error e => .error e

/-- The direct-download submission loop (lines 168-174).  An entry whose `url`
or `filename` is missing reaches `logger.warning(..., file=sys.stderr)` on
line 172; `logging.warning` does not accept a `file` keyword argument and
raises `TypeError`, so the loop aborts there instead of skipping the entry. -/
def mkDirectTasks (fetch : String → Except Exn String) :
    List DirectEntry → Except Exn (List TaskOutcome)
  | [] => .ok []
  | en :: rest =>
    match en.url, en.filename with
    | some u, some f =>
      match mkDirectTasks fetch rest with
      | .ok ts => .ok (download fetch u f :: ts)
      | .error e => .error e
    | _, _ => .error .typeErrorLoggingFile

/-- The descriptor tasks submitted from `manifest['files']` (lines 165-166),
in submission order. -/
def modTasks (m : Manifest) (a : Args) (o : Oracle) : List TaskOutcome :=
  m.files.map (fun spec => download_mod o.resolve spec a.exclude)

/-- Store writes of the tasks that settled before the first failure, in
completion order.  On a fully successful batch this is every write; after a
failure the batch is abandoned unread, so the exact cut is unobservable. -/
def okUntilErr : List TaskOutcome → List (Option (String × String))
  | [] => []
  | .ok w :: rest => w :: okUntilErr rest
  | .error _ :: _ => []

/-- Apply the store writes to the temporary directory: each stored file lands
in `mod_store` under its (server-assigned, per-task distinct) filename; an
excluded task writes nothing. -/
def applyWrites (ws : List (Option (String × String))) (t : Entry) : Entry :=
  ws.foldl
    (fun t2 w =>
      match w with
      | some fc => writeFile t2 ["mod_store", fc.1] fc.2
      | none => t2) t

/-- What the result-collection loop (lines 176-183) does, as a function of the
futures in completion order: successful futures are skipped; at the first
future holding an exception every future is cancelled (`g.cancel()`, line 180)
and `f.result()` re-raises that exception, ending the loop.  Cancelled tasks
are never queried, so they raise nothing themselves. -/
structure LoopTrace where
  cancelIssued : Bool
  result : Except Exn Unit
deriving Repr

def collectLoop : List TaskOutcome → LoopTrace
  | [] => { cancelIssued := false, result := .ok () }
  | .ok _ :: rest => collectLoop rest
  | .error e :: _ => { cancelIssued := true, result := .error e }

/-- First error in completion order, if any. -/
def firstErr : List TaskOutcome → Option Exn
  | [] => none
  | .ok _ :: rest => firstErr rest
  | .error e :: _ => some e

/-- The mutable state `run` threads: the installation directory (`base_dir`)
and the temporary directory.  `base_dir` is created and resolved up front
(lines 132-135); the pack archive and manifest acquisition (lines 137-149)
only reads, or writes `modpack.zip` inside the temporary directory, so the
archive and manifest are taken as inputs. -/
structure RunState where
  base : Entry
  tmp : Entry
deriving Repr, DecidableEq

/-- The download phase of `run` (lines 158-184): create `mod_store`, submit
one task per descriptor and per well-formed direct entry, let the pool run
the tasks (their completion order is `sched` applied to the submission order;
the claims hold for every order), apply the store writes of settled tasks,
then run the collection loop.  Failure aborts `run` before any staging. -/
def downloadPhase (m : Manifest) (a : Args) (o : Oracle)
    (sched : List TaskOutcome → List TaskOutcome) (s : RunState) :
    Except Exn Unit × RunState :=
  let s1 : RunState := { s with tmp := mkdirAt s.tmp ["mod_store"] }
  match mkDirectTasks o.fetch m.directDownload with
  | .error e => (.error e, s1)
  | .ok directTasks =>
    let completed := sched (modTasks m a o ++ directTasks)
    let s2 : RunState := { s1 with tmp := applyWrites (okUntilErr completed) s1.tmp }
    ((collectLoop completed).result, s2)

/-- The installer URL template (line 35) instantiated at a version string. -/
def forge_installer_url (version : String) : String :=
  "http://files.minecraftforge.net/maven/net/minecraftforge/forge/" ++ version ++
    "/forge-" ++ version ++ "-installer.jar"

/-- Observable actions of `update_forge`: the installer paths passed to
`subprocess.check_call` and the symlink created, if any. -/
structure ForgeTrace where
  invocations : List String
  symlinkCreated : Option (String × String)
deriving Repr, DecidableEq

/-- update_forge (modpack-helper.py lines 87-114).  The primary download of
the installer is wrapped in `try`/`except urllib.error.HTTPError` (lines
92-97): an HTTP error with status other than 404 is re-raised, a 404 leaves
`forge_installer = None`; any non-HTTP exception propagates uncaught.  When no
installer was obtained, the version string gains a second `-mc_version`
component and the download is repeated with no handler (lines 100-102).  The
installer then runs once via `subprocess.check_call` (line 106).  The symlink
step (lines 108-113) tests a file the installer subprocess wrote, which is
outside the modelled tree, hence the `universalExists` oracle; the installer
download itself lands in the temporary directory and is never read again by
the script, so it is not threaded through the tree either. -/
def update_forge (mc_version forge_version : String) (dl : String → Except Exn String)
    (runInstaller : String → Except Exn Unit) (universalExists : Bool)
    (forge_symlink : Option String) : Except Exn ForgeTrace :=
  let full_version := mc_version ++ "-" ++ forge_version
  let attempt : Except Exn (Option String) :=
    match dl (forge_installer_url full_version) with
    | .ok name => .ok (some name)
    | .error (.http code url) =>
      if code != 404 then .error (.http code url) else .ok none
    | .error e => .error e
  match attempt with
  | .error e => .error e
  | .ok firstTry =>
    let second : Except Exn String :=
      match firstTry with
      | some name => .ok name
      | none => dl (forge_installer_url (full_version ++ "-" ++ mc_version))
    match second with
    | .error e => .error e
    | .ok forge_installer =>
      match runInstaller forge_installer with
      | .error e => .error e
      | .ok _ =>
        let forgeName := forge_installer.replace "installer" "universal"
        let link :=
          if universalExists then forge_symlink.map (fun l => (l, forgeName)) else none
        .ok { invocations := [forge_installer], symlinkCreated := link }

/-- Forge id extraction (lines 199-201): ids of `modLoaders` entries starting
with `forge-`, with that marker stripped. -/
def forgeIds (mc : MinecraftSpec) : List String :=
  (mc.modLoaders.filter (fun x => x.id.startsWith "forge-")).map
    (fun x => x.id.replace "forge-" "")

/-- The Forge stage of `run` (lines 197-206): skipped under `--keep-forge`;
with a usable minecraft version and at least one forge id it runs
`update_forge` (whose failure aborts the run), otherwise it logs a warning and
continues. -/
def forgeStage (m : Manifest) (a : Args) (o : Oracle) : Except Exn Unit :=
  if a.keep_forge then .ok ()
  else
    match m.minecraft with
    | none => .ok ()
    | some mc =>
      match mc.version, forgeIds mc with
      | some v, fid :: _ =>
        match update_forge v fid o.forgeDl o.forgeRun o.forgeUniversalExists
            a.forge_symlink with
        | .ok _ => .ok ()
        | .error e => .error e
      | _, _ => .ok ()

/-- The entries selected for extraction by the overrides stage (line 217):
`[entry for entry in modpack.namelist() if Path(entry) > overrides]`, a
lexicographic part-list comparison, not a containment test. -/
def overridesTodo (archive : List (List String × String)) (ov : List String) :
    List (List String × String) :=
  archive.filter (fun en => partsGt en.1 ov)

/-- `modpack.extractall(tmp_dir, todo)` (line 218): write each selected entry
below the temporary directory, creating parent directories. -/
def extractAll (todo : List (List String × String)) (t : Entry) : Entry :=
  todo.foldl (fun t2 en => writeFile t2 en.1 en.2) t

/-- The overrides stage of `run` (lines 212-219): if the manifest declares an
overrides root, extract the selected entries into the temporary directory and
`copytree` the extracted overrides root onto the installation root with the
default overwrite.  `os.listdir` on a missing or non-directory source raises
`OSError`. -/
def applyOverrides (m : Manifest) (archive : List (List String × String))
    (s : RunState) : Except Exn Unit × RunState :=
  match m.overrides with
  | none => (.ok (), s)
  | some ov =>
    let todo := overridesTodo archive ov
    let s1 : RunState := { s with tmp := extractAll todo s.tmp }
    match s1.tmp.get ov with
    | some (.file _) => (.error .os, s1)
    | some ovTree => (.ok (), { s1 with base := copytree ovTree s1.base [] true })
    | none => (.error .os, s1)

/-- The config restore stage (lines 221-222): under `--keep-config`, when a
config backup exists, `copytree` it back over the live `config` subtree —
with the `override` parameter left at its default `True`. -/
def restoreConfig (a : Args) (s : RunState) : Except Exn Unit × RunState :=
  if a.keep_config then
    match s.base.get [backupName "config"] with
    | some (.file _) => (.error .os, s)
    | some bak => (.ok (), { s with base := copytree bak s.base ["config"] true })
    | none => (.ok (), s)
  else (.ok (), s)

/-- run (modpack-helper.py lines 129-224), from the point where the manifest,
archive listing and blacklist are in hand: download phase, backup step, Forge
stage, mod installation (`copytree(mod_store, mods)`, line 210, overwrite
default), overrides stage, config restore.  Any failure aborts the remaining
stages and surfaces to the caller; nothing is rolled back. -/
def run (m : Manifest) (archive : List (List String × String)) (a : Args) (o : Oracle)
    (sched : List TaskOutcome → List TaskOutcome) (s : RunState) :
    Except Exn Unit × RunState :=
  match downloadPhase m a o sched s with
  | (.error e, s1) => (.error e, s1)
  | (.ok _, s1) =>
    let s2 : RunState := { s1 with base := backupStep s1.base }
    match forgeStage m a o with
    | .error e => (.error e, s2)
    | .ok _ =>
      match s2.tmp.get ["mod_store"] with
      | some (.file _) => (.error .os, s2)
      | none => (.error .os, s2)
      | some store =>
        let s3 : RunState := { s2 with base := copytree store s2.base ["mods"] true }
        match applyOverrides m archive s3 with
        | (.error e, s4) => (.error e, s4)
        | (.ok _, s4) => restoreConfig a s4

/-! ## Fixtures used by the claim theorems and witnesses -/

def w9resolve : ModSpec → Except Exn (String × String) := fun _ => .ok ("x-dev.jar", "c")

/-- Oracle for scenarios whose network is never (successfully) used. -/
def noNetOracle : Oracle :=
  { resolve := fun _ => .error .os
    fetch := fun _ => .error .os
    forgeDl := fun _ => .error .os
    forgeRun := fun _ => .error .os
    forgeUniversalExists := false }

/-- Manifest of the C1 scenario: no downloads, overrides root `overrides`. -/
def c1manifest : Manifest :=
  { name := "p", version := "1", files := [], directDownload := []
    minecraft := none, overrides := some ["overrides"] }

/-- Archive of the C1 scenario: the manifest itself plus an overrides-supplied
config file with content `new`. -/
def c1archive (new : String) : List (List String × String) :=
  [(["manifest.json"], "manifest"), (["overrides", "config", "settings.cfg"], new)]

/-- Options of the C1 scenario: `--keep-forge --keep-config`. -/
def c1args : Args :=
  { keep_forge := true, keep_config := true, exclude := none, forge_symlink := none }

/-- Installation directory of the C1 scenario: a pre-existing
`config/settings.cfg` with content `old`. -/
def c1base (old : String) : Entry :=
  dirOf [("config", dirOf [("settings.cfg", .file old)])]

/-- Installation directory of the C1 scenario after the backup step. -/
def c1afterBackup (old : String) : Entry :=
  dirOf [("mods", .dnil),
         ("config.bak", dirOf [("settings.cfg", .file old)]),
         ("config", .dnil)]

/-- Temporary directory of the C1 scenario after the overrides extraction. -/
def c1tmpAfter (new : String) : Entry :=
  dirOf [("mod_store", .dnil),
         ("overrides", dirOf [("config", dirOf [("settings.cfg", .file new)])])]

/-- Installation directory of the C1 scenario after the overrides copy. -/
def c1baseOverridden (old new : String) : Entry :=
  dirOf [("mods", .dnil),
         ("config.bak", dirOf [("settings.cfg", .file old)]),
         ("config", dirOf [("settings.cfg", .file new)])]

/-- Installation directory of the C1 scenario at the end of the run: the
restore step put the backed-up content back over the overridden file. -/
def c1final (old : String) : Entry :=
  dirOf [("mods", .dnil),
         ("config.bak", dirOf [("settings.cfg", .file old)]),
         ("config", dirOf [("settings.cfg", .file old)])]

/-- Manifest of the C6 scenario: one descriptor file, nothing else. -/
def c6manifest : Manifest :=
  { name := "p", version := "1", files := [⟨10, 1⟩], directDownload := []
    minecraft := none, overrides := none }

/-- Oracle of the C6 scenario: the single mod resolves to `a.jar`. -/
def c6oracle : Oracle :=
  { resolve := fun _ => .ok ("a.jar", "A")
    fetch := fun _ => .error .os
    forgeDl := fun _ => .error .os
    forgeRun := fun _ => .error .os
    forgeUniversalExists := false }

/-- Options of the C6 scenario: `--keep-forge`, no `--keep-config`. -/
def c6args : Args :=
  { keep_forge := true, keep_config := false, exclude := none, forge_symlink := none }

/-- Temporary directory of the C6 scenario after the download phase. -/
def c6tmp : Entry := dirOf [("mod_store", dirOf [("a.jar", .file "A")])]

/-- Installation directory of the C6 scenario at the end of the run: both
backups still hold the pre-run contents. -/
def c6final (m c : Entry) : Entry :=
  dirOf [("mods.bak", m), ("mods", dirOf [("a.jar", .file "A")]),
         ("config.bak", c), ("config", .dnil)]

/-- Manifest of the C7 scenario: one direct-download entry lacking both `url`
and `filename`. -/
def c7manifest : Manifest :=
  { name := "p", version := "1", files := []
    directDownload := [{ url := none, filename := none }]
    minecraft := none, overrides := none }

/-- Manifest, options and oracle of the C5 witness: a single direct download
whose transfer fails. -/
def c5manifest : Manifest :=
  { name := "p", version := "1", files := []
    directDownload := [{ url := some "http://x/d.jar", filename := some "d.jar" }]
    minecraft := none, overrides := none }

def c5oracle : Oracle :=
  { resolve := fun _ => .error .os
    fetch := fun _ => .error (.net "http://x/d.jar")
    forgeDl := fun _ => .error .os
    forgeRun := fun _ => .error .os
    forgeUniversalExists := false }

def c5base : Entry := dirOf [("mods", dirOf [("m.jar", .file "M")]), ("config", .dnil)]

/-- Manifest and oracle of the C4 witness: a single descriptor task that
fails with an HTTP error. -/
def c4manifest : Manifest :=
  { name := "p", version := "1", files := [⟨10, 1⟩], directDownload := []
    minecraft := none, overrides := none }

def c4oracle : Oracle :=
  { resolve := fun _ => .error (.http 500 "http://curse/10")
    fetch := fun _ => .error .os
    forgeDl := fun _ => .error .os
    forgeRun := fun _ => .error .os
    forgeUniversalExists := false }

/-- Download oracle of the C8 witness: the primary installer URL for
`1.7.10-10.13.4.1614` is not found, the alternate version string succeeds. -/
def c8dl : String → Except Exn String := fun u =>
  if u == forge_installer_url "1.7.10-10.13.4.1614" then .error (.http 404 u)
  else if u == forge_installer_url "1.7.10-10.13.4.1614-1.7.10" then
    .ok "forge-1.7.10-10.13.4.1614-1.7.10-installer.jar"
  else .error .os

def c8inst : String → Except Exn Unit := fun _ => .ok ()

/-! ## Evaluation checks of the embedded operations -/

example : (copytree (dirOf [("a", .file "x")]) .dnil ["mods"] true).get ["mods", "a"]
    = some (.file "x") := by rfl

example : fnmatch "foo-dev.jar" "*-dev.jar" = true := by rfl
example : fnmatch "foo-dev.jarx" "*-dev.jar" = false := by rfl
example : fnmatch "abc" "a?c" = true := by rfl
example : fnmatch "abc" "a[b-d]c" = true := by rfl
example : fnmatch "aec" "a[b-d]c" = false := by rfl
example : fnmatch "aec" "a[!b-d]c" = true := by rfl
example : fnmatch "a]c" "a[]x]c" = true := by rfl
example : fnmatch "a[c" "a[c" = true := by rfl

/-! ## Helper lemmas shared by the claim theorems -/

theorem partsLt_of_isUnder : ∀ ov p : List String, isUnder ov p = true → partsLt ov p = true := by
  intro ov
  induction ov with
  | nil =>
    intro p h
    cases p with
    | nil => simp [isUnder] at h
    | cons x xs => rfl
  | cons a as ih =>
    intro p h
    cases p with
    | nil => simp [isUnder] at h
    | cons b bs =>
      simp only [isUnder, Bool.and_eq_true] at h
      simp [partsLt, h.1, ih bs h.2]

theorem collectLoop_firstErr (l : List TaskOutcome) (e : Exn) (h : firstErr l = some e) :
    collectLoop l = { cancelIssued := true, result := .error e } := by
  induction l with
  | nil => simp [firstErr] at h
  | cons x rest ih =>
    cases x with
    | ok w =>
      simp only [firstErr] at h
      simp [collectLoop, ih h]
    | error e2 =>
      simp only [firstErr, Option.some_inj] at h
      subst h
      simp [collectLoop]

theorem downloadPhase_base (m : Manifest) (a : Args) (o : Oracle)
    (sched : List TaskOutcome → List TaskOutcome) (s : RunState) :
    (downloadPhase m a o sched s).2.base = s.base := by
  unfold downloadPhase
  cases hD : mkDirectTasks o.fetch m.directDownload with
  | error e => simp
  | ok ts => simp

theorem backupStep_dirs (m c : Entry) :
    backupStep (dirOf [("mods", m), ("config", c)])
      = dirOf [("mods.bak", m), ("mods", .dnil), ("config.bak", c), ("config", .dnil)] := by
  rfl

theorem backupStep_after (m c : Entry) :
    backupStep (dirOf [("mods.bak", m), ("mods", .dnil), ("config.bak", c),
        ("config", .dnil)])
      = dirOf [("mods.bak", .dnil), ("mods", .dnil), ("config.bak", .dnil),
          ("config", .dnil)] := by
  rfl

theorem run_downloadPhase_error (m : Manifest) (archive : List (List String × String))
    (a : Args) (o : Oracle) (sched : List TaskOutcome → List TaskOutcome) (s : RunState)
    (e : Exn) (h : (downloadPhase m a o sched s).1 = .error e) :
    (run m archive a o sched s).1 = .error e
    ∧ (run m archive a o sched s).2.base = s.base := by
  have hb := downloadPhase_base m a o sched s
  rcases hd : downloadPhase m a o sched s with ⟨r, s1⟩
  rw [hd] at h hb
  simp only at h hb
  subst h
  unfold run
  rw [hd]
  exact ⟨rfl, hb⟩

/-! ## Claim theorems -/

/-- C10: in `copytree`, the overwrite policy applies only to the top-level
regular files of each call.  First conjunct: processing a subdirectory item
unfolds to a recursive call whose `override` argument is the constant `true`,
whatever `override` the caller passed (line 124 calls `copytree(s, d)` with the
default).  Second conjunct: a file inside a subdirectory of the destination is
therefore overwritten for either value of `override`.  Third conjunct: a
top-level file of the destination is kept when `override` is `false`. -/
theorem c10_copytree_recursion_overwrites :
    (∀ (n m : String) (e sub rest t : Entry) (dst : List String) (override : Bool),
      copyItems (.dcons n (.dcons m e sub) rest) t dst override =
        copyItems rest
          (copyItems (.dcons m e sub)
            (if (t.get (dst ++ [n])).isSome then t else mkdirp t (dst ++ [n]))
            (dst ++ [n]) true)
          dst override)
    ∧ (∀ (old new : String) (override : Bool),
      (copytree (dirOf [("sub", dirOf [("f", .file new)])])
          (dirOf [("sub", dirOf [("f", .file old)])]) [] override).get ["sub", "f"]
        = some (.file new))
    ∧ (∀ old new : String,
      (copytree (dirOf [("f", .file new)])
          (dirOf [("f", .file old)]) [] false).get ["f"]
        = some (.file old)) :=
  ⟨fun _ _ _ _ _ _ _ _ => rfl, fun _ _ _ => rfl, fun _ _ => rfl⟩

/-- C9: the exclusion test is pure and holds exactly when some blacklist
pattern glob-matches the filename, and a descriptor task whose resolved
filename is excluded yields `Excluded` (the Python `None`) and writes nothing
to the download store. -/
theorem c9_filter (F : String) (B : List String) :
    (isExcluded F (some B) = true ↔ ∃ p ∈ B, fnmatch F p = true)
    ∧ (∀ (resolve : ModSpec → Except Exn (String × String)) (spec : ModSpec)
        (fn content : String) (t : Entry),
        resolve spec = .ok (fn, content) →
        isExcluded fn (some B) = true →
        download_mod resolve spec (some B) = .ok none
        ∧ applyWrites (okUntilErr [download_mod resolve spec (some B)]) t = t) := by
  constructor
  · constructor
    · intro h
      simp only [isExcluded, Bool.and_eq_true, List.any_eq_true] at h
      exact h.2
    · rintro ⟨p, hp, hm⟩
      have hne : B ≠ [] := by
        intro h0
        subst h0
        cases hp
      simp only [isExcluded, Bool.and_eq_true, List.any_eq_true]
      exact ⟨by simpa using hne, p, hp, hm⟩
  · intro resolve spec fn content t hres hexc
    have hd : download_mod resolve spec (some B) = .ok none := by
      simp [download_mod, hres, hexc]
    refine ⟨hd, ?_⟩
    rw [hd]
    rfl

theorem c9_filter_witness :
    isExcluded "x-dev.jar" (some ["*-dev.jar"]) = true
    ∧ download_mod w9resolve ⟨1, 2⟩ (some ["*-dev.jar"]) = .ok none
    ∧ applyWrites (okUntilErr [download_mod w9resolve ⟨1, 2⟩ (some ["*-dev.jar"])])
        (dirOf [("mod_store", .dnil)]) = dirOf [("mod_store", .dnil)] :=
  ⟨(c9_filter "x-dev.jar" ["*-dev.jar"]).1.mpr ⟨"*-dev.jar", by simp, by rfl⟩,
   ((c9_filter "x-dev.jar" ["*-dev.jar"]).2 w9resolve ⟨1, 2⟩ "x-dev.jar" "c"
      (dirOf [("mod_store", .dnil)]) rfl (by rfl)).1,
   ((c9_filter "x-dev.jar" ["*-dev.jar"]).2 w9resolve ⟨1, 2⟩ "x-dev.jar" "c"
      (dirOf [("mod_store", .dnil)]) rfl (by rfl)).2⟩

/-- C3 counterexample: with overrides root `overrides`, the archive entry
`zz.txt` does not fall under the root, yet the selection keeps it, because
`Path("zz.txt") > Path("overrides")` holds lexicographically.  The claimed
equality of the selected set with the set of entries under the root is
therefore false at this input. -/
theorem c3_counterexample :
    overridesTodo [(["zz.txt"], "junk"), (["overrides", "config", "a.cfg"], "x")] ["overrides"]
      = [(["zz.txt"], "junk"), (["overrides", "config", "a.cfg"], "x")]
    ∧ isUnder ["overrides"] ["zz.txt"] = false :=
  ⟨rfl, rfl⟩

/-- C3 amended: the selection keeps exactly the entries whose part list
compares strictly greater than the overrides root (Python `Path.__gt__`).
Every entry structurally under the root is selected, but entries outside the
root that sort after it are selected as well. -/
theorem c3_amended (archive : List (List String × String)) (ov : List String) :
    (∀ en, en ∈ overridesTodo archive ov ↔ en ∈ archive ∧ partsGt en.1 ov = true)
    ∧ (∀ en, en ∈ archive → isUnder ov en.1 = true → en ∈ overridesTodo archive ov) := by
  constructor
  · intro en
    simp [overridesTodo, List.mem_filter]
  · intro en hmem hunder
    simp only [overridesTodo, List.mem_filter]
    exact ⟨hmem, partsLt_of_isUnder ov en.1 hunder⟩

theorem c3_amended_witness :
    (["overrides", "config", "a.cfg"], "x")
      ∈ overridesTodo [(["overrides", "config", "a.cfg"], "x")] ["overrides"]
    ∧ (["zz.txt"], "j") ∈ overridesTodo [(["zz.txt"], "j")] ["overrides"] :=
  ⟨(c3_amended [(["overrides", "config", "a.cfg"], "x")] ["overrides"]).2 _ (by simp) rfl,
   ((c3_amended [(["zz.txt"], "j")] ["overrides"]).1 _).mpr ⟨by simp, rfl⟩⟩

/-- C2 counterexample: after running the backup step twice on an installation
holding `mods/a.jar` and `config/s.cfg`, the original contents are at neither
the backup nor any other location — while after a single run they are at the
backup location.  The second execution removed the first backup (which held
the originals) and renamed the empty live subtree over it. -/
theorem c2_counterexample :
    (backupStep (backupStep (dirOf [("mods", dirOf [("a.jar", .file "A")]),
        ("config", dirOf [("s.cfg", .file "S")])]))).get ["mods.bak", "a.jar"] = none
    ∧ (backupStep (backupStep (dirOf [("mods", dirOf [("a.jar", .file "A")]),
        ("config", dirOf [("s.cfg", .file "S")])]))).get ["config.bak", "s.cfg"] = none
    ∧ (backupStep (dirOf [("mods", dirOf [("a.jar", .file "A")]),
        ("config", dirOf [("s.cfg", .file "S")])])).get ["mods.bak", "a.jar"]
        = some (.file "A")
    ∧ (backupStep (dirOf [("mods", dirOf [("a.jar", .file "A")]),
        ("config", dirOf [("s.cfg", .file "S")])])).get ["config.bak", "s.cfg"]
        = some (.file "S") := by
  have h1 := backupStep_dirs (dirOf [("a.jar", .file "A")]) (dirOf [("s.cfg", .file "S")])
  have h2 := backupStep_after (dirOf [("a.jar", .file "A")]) (dirOf [("s.cfg", .file "S")])
  refine ⟨?_, ?_, ?_, ?_⟩
  · rw [h1, h2]; rfl
  · rw [h1, h2]; rfl
  · rw [h1]; rfl
  · rw [h1]; rfl

/-- C2 amended: the backup step is not idempotent with respect to the original
contents.  One execution moves the live `mods` and `config` subtrees to the
backup locations and recreates empty live subtrees; a second execution in a
row removes those backups (they count as stale) and replaces them with the
empty subtrees the first execution created, so the original pre-run contents
are lost entirely. -/
theorem c2_double_backup_discards_originals (m c : Entry) :
    backupStep (dirOf [("mods", m), ("config", c)])
      = dirOf [("mods.bak", m), ("mods", .dnil), ("config.bak", c), ("config", .dnil)]
    ∧ backupStep (backupStep (dirOf [("mods", m), ("config", c)]))
      = dirOf [("mods.bak", .dnil), ("mods", .dnil), ("config.bak", .dnil),
          ("config", .dnil)] :=
  ⟨backupStep_dirs m c, by rw [backupStep_dirs, backupStep_after]⟩

/-- The C1 run, stage by stage. -/
theorem c1_run_eq (old new : String) :
    run c1manifest (c1archive new) c1args noNetOracle id
        { base := c1base old, tmp := .dnil }
      = (.ok (), { base := c1final old, tmp := c1tmpAfter new }) := by
  have hA : downloadPhase c1manifest c1args noNetOracle id
      { base := c1base old, tmp := .dnil }
      = (.ok (), { base := c1base old, tmp := dirOf [("mod_store", .dnil)] }) := rfl
  have hB : backupStep (c1base old) = c1afterBackup old := rfl
  have hC : forgeStage c1manifest c1args noNetOracle = .ok () := rfl
  have hG : (dirOf [("mod_store", .dnil)]).get ["mod_store"] = some .dnil := rfl
  have hD : copytree .dnil (c1afterBackup old) ["mods"] true = c1afterBackup old := rfl
  have hE : applyOverrides c1manifest (c1archive new)
      { base := c1afterBackup old, tmp := dirOf [("mod_store", .dnil)] }
      = (.ok (), { base := c1baseOverridden old new, tmp := c1tmpAfter new }) := rfl
  have hF : restoreConfig c1args { base := c1baseOverridden old new, tmp := c1tmpAfter new }
      = (.ok (), { base := c1final old, tmp := c1tmpAfter new }) := rfl
  simp only [run, hA, hB, hC, hG, hD, hE, hF]

/-- C1 amended: with `keepConfig` requested, an existing config backup, and an
overrides root supplying `config/settings.cfg`, the run completes and the
final content of that file is the backed-up version, because the restore step
calls `copytree` with its default `override=True` (line 222) and so overwrites
the file the overrides step placed. -/
theorem c1_restore_backup_wins (old new : String) :
    (run c1manifest (c1archive new) c1args noNetOracle id
        { base := c1base old, tmp := .dnil }).1 = .ok ()
    ∧ (run c1manifest (c1archive new) c1args noNetOracle id
        { base := c1base old, tmp := .dnil }).2.base.get ["config", "settings.cfg"]
      = some (.file old) := by
  rw [c1_run_eq]
  exact ⟨rfl, rfl⟩

/-- C1 counterexample: at the concrete scenario with backed-up content `OLD`
and overrides content `NEW`, the final `config/settings.cfg` is `OLD`, not the
overrides version `NEW` — the restore step did overwrite the file placed by
the overrides step, so the claim is false at this input. -/
theorem c1_counterexample :
    (run c1manifest (c1archive "NEW") c1args noNetOracle id
        { base := c1base "OLD", tmp := .dnil }).1 = .ok ()
    ∧ (run c1manifest (c1archive "NEW") c1args noNetOracle id
        { base := c1base "OLD", tmp := .dnil }).2.base.get ["config", "settings.cfg"]
      = some (.file "OLD")
    ∧ "OLD" ≠ "NEW" := by
  rw [c1_run_eq]
  exact ⟨rfl, rfl, by decide⟩

/-- The C6 run, stage by stage. -/
theorem c6_run_eq (m c : Entry) :
    run c6manifest [] c6args c6oracle id
        { base := dirOf [("mods", m), ("config", c)], tmp := .dnil }
      = (.ok (), { base := c6final m c, tmp := c6tmp }) := by
  have hA : downloadPhase c6manifest c6args c6oracle id
      { base := dirOf [("mods", m), ("config", c)], tmp := .dnil }
      = (.ok (), { base := dirOf [("mods", m), ("config", c)], tmp := c6tmp }) := rfl
  have hB := backupStep_dirs m c
  have hC : forgeStage c6manifest c6args c6oracle = .ok () := rfl
  have hG : c6tmp.get ["mod_store"] = some (.dcons "a.jar" (.file "A") .dnil) := rfl
  have hD : copytree (.dcons "a.jar" (.file "A") .dnil)
      (dirOf [("mods.bak", m), ("mods", .dnil), ("config.bak", c), ("config", .dnil)])
      ["mods"] true = c6final m c := rfl
  have hE : applyOverrides c6manifest [] { base := c6final m c, tmp := c6tmp }
      = (.ok (), { base := c6final m c, tmp := c6tmp }) := rfl
  have hF : restoreConfig c6args { base := c6final m c, tmp := c6tmp }
      = (.ok (), { base := c6final m c, tmp := c6tmp }) := rfl
  simp only [run, hA, hB, hC, hG, hD, hE, hF]

/-- C6 amended: a completed run consumes no backup.  The mods and config
backups taken at the start of staging still hold the pre-run subtree contents
when the run finishes (under `keepConfig` the config backup is only copied,
not moved or deleted); stale backups are removed only by the backup step of a
subsequent run. -/
theorem c6_backups_survive_run (m c : Entry) :
    (run c6manifest [] c6args c6oracle id
        { base := dirOf [("mods", m), ("config", c)], tmp := .dnil }).1 = .ok ()
    ∧ (run c6manifest [] c6args c6oracle id
        { base := dirOf [("mods", m), ("config", c)], tmp := .dnil }).2.base.get
        ["mods.bak"] = some m
    ∧ (run c6manifest [] c6args c6oracle id
        { base := dirOf [("mods", m), ("config", c)], tmp := .dnil }).2.base.get
        ["config.bak"] = some c := by
  rw [c6_run_eq]
  exact ⟨rfl, rfl, rfl⟩

/-- C6 counterexample: a concrete run that completes successfully and leaves
both `mods.bak` and `config.bak` in the installation directory, still holding
the pre-run data — the backups are neither restored-and-deleted nor
discarded, contradicting the claim that no backup outlives the run. -/
theorem c6_counterexample :
    (run c6manifest [] c6args c6oracle id
        { base := dirOf [("mods", dirOf [("old.jar", .file "O")]),
            ("config", dirOf [("k.cfg", .file "K")])], tmp := .dnil }).1 = .ok ()
    ∧ (run c6manifest [] c6args c6oracle id
        { base := dirOf [("mods", dirOf [("old.jar", .file "O")]),
            ("config", dirOf [("k.cfg", .file "K")])], tmp := .dnil }).2.base.get
        ["mods.bak", "old.jar"] = some (.file "O")
    ∧ (run c6manifest [] c6args c6oracle id
        { base := dirOf [("mods", dirOf [("old.jar", .file "O")]),
            ("config", dirOf [("k.cfg", .file "K")])], tmp := .dnil }).2.base.get
        ["config.bak", "k.cfg"] = some (.file "K") := by
  rw [c6_run_eq]
  exact ⟨rfl, rfl, rfl⟩

/-- C7: a direct-download entry lacking both `url` and `filename` does not
produce a warning-and-continue.  The submission loop reaches
`logger.warning('Error while handling entry ...', file=sys.stderr)` (line
172), and `logging.warning` rejects the `file` keyword argument with
`TypeError`, so the run aborts with that exception instead of skipping the
entry; the installation directory is untouched. -/
theorem c7_malformed_direct_entry_aborts :
    mkDirectTasks noNetOracle.fetch [{ url := none, filename := none }]
      = .error .typeErrorLoggingFile
    ∧ (run c7manifest [] c6args noNetOracle id
        { base := .dnil, tmp := .dnil }).1 = .error .typeErrorLoggingFile
    ∧ (run c7manifest [] c6args noNetOracle id
        { base := .dnil, tmp := .dnil }).2.base = .dnil :=
  ⟨rfl, rfl, rfl⟩

/-- C5: when the download phase fails with any error, the run aborts with that
error and the installation directory's `mods` and `config` subtrees are left
exactly as they were: every write before staging goes to the temporary store
only, so a failed download phase is safe to retry. -/
theorem c5_download_failure_leaves_install_untouched
    (m : Manifest) (archive : List (List String × String)) (a : Args) (o : Oracle)
    (sched : List TaskOutcome → List TaskOutcome) (s : RunState) (e : Exn)
    (h : (downloadPhase m a o sched s).1 = .error e) :
    (run m archive a o sched s).1 = .error e
    ∧ (run m archive a o sched s).2.base.get ["mods"] = s.base.get ["mods"]
    ∧ (run m archive a o sched s).2.base.get ["config"] = s.base.get ["config"] := by
  obtain ⟨h1, h2⟩ := run_downloadPhase_error m archive a o sched s e h
  exact ⟨h1, by rw [h2], by rw [h2]⟩

theorem c5_download_failure_witness :
    (run c5manifest [] c6args c5oracle id { base := c5base, tmp := .dnil }).1
      = .error (.net "http://x/d.jar")
    ∧ (run c5manifest [] c6args c5oracle id { base := c5base, tmp := .dnil }).2.base.get
        ["mods"] = c5base.get ["mods"]
    ∧ (run c5manifest [] c6args c5oracle id { base := c5base, tmp := .dnil }).2.base.get
        ["config"] = c5base.get ["config"] :=
  c5_download_failure_leaves_install_untouched c5manifest [] c6args c5oracle id
    { base := c5base, tmp := .dnil } (.net "http://x/d.jar") rfl

/-- C4: if any task of the batch fails, the collection loop cancels every
other task and re-raises the first failure in completion order; `run`
surfaces exactly that error and no staging begins — the installation
directory is exactly the input one, so no `Stored` result is ever used. -/
theorem c4_fail_fast
    (m : Manifest) (archive : List (List String × String)) (a : Args) (o : Oracle)
    (sched : List TaskOutcome → List TaskOutcome) (s : RunState)
    (dts : List TaskOutcome) (e : Exn)
    (hdirect : mkDirectTasks o.fetch m.directDownload = .ok dts)
    (hfail : firstErr (sched (modTasks m a o ++ dts)) = some e) :
    collectLoop (sched (modTasks m a o ++ dts))
      = { cancelIssued := true, result := .error e }
    ∧ (run m archive a o sched s).1 = .error e
    ∧ (run m archive a o sched s).2.base = s.base := by
  have hcl := collectLoop_firstErr (sched (modTasks m a o ++ dts)) e hfail
  have hdp : (downloadPhase m a o sched s).1 = .error e := by
    unfold downloadPhase
    rw [hdirect]
    simp only [hcl]
  obtain ⟨h1, h2⟩ := run_downloadPhase_error m archive a o sched s e hdp
  exact ⟨hcl, h1, h2⟩

theorem c4_fail_fast_witness :
    collectLoop (id (modTasks c4manifest c6args c4oracle ++ []))
      = { cancelIssued := true, result := .error (.http 500 "http://curse/10") }
    ∧ (run c4manifest [] c6args c4oracle id { base := c5base, tmp := .dnil }).1
      = .error (.http 500 "http://curse/10")
    ∧ (run c4manifest [] c6args c4oracle id { base := c5base, tmp := .dnil }).2.base
      = c5base :=
  c4_fail_fast c4manifest [] c6args c4oracle id { base := c5base, tmp := .dnil } []
    (.http 500 "http://curse/10") rfl rfl

/-- C8: behaviour of `update_forge` at each outcome of the primary installer
download.  A success runs the installer exactly once on the downloaded
installer; a 404 retries exactly once with the alternate version string
`mc-forge-mc` and, on success, runs the installer exactly once on the
fallback-resolved installer; a non-404 HTTP failure and any non-HTTP failure
are fatal with no retry and no installer invocation (the conclusion does not
consult `dl` at the fallback URL at all); a failing fallback download is fatal
as well. -/
theorem c8_forge_fallback (mcv fv : String) (dl : String → Except Exn String)
    (inst : String → Except Exn Unit) (ex : Bool) (sl : Option String) :
    (∀ name, dl (forge_installer_url (mcv ++ "-" ++ fv)) = .ok name →
      inst name = .ok () →
      (update_forge mcv fv dl inst ex sl).map ForgeTrace.invocations = .ok [name])
    ∧ (∀ u name, dl (forge_installer_url (mcv ++ "-" ++ fv)) = .error (.http 404 u) →
      dl (forge_installer_url (mcv ++ "-" ++ fv ++ "-" ++ mcv)) = .ok name →
      inst name = .ok () →
      (update_forge mcv fv dl inst ex sl).map ForgeTrace.invocations = .ok [name])
    ∧ (∀ code u, code ≠ 404 →
      dl (forge_installer_url (mcv ++ "-" ++ fv)) = .error (.http code u) →
      update_forge mcv fv dl inst ex sl = .error (.http code u))
    ∧ (∀ u, dl (forge_installer_url (mcv ++ "-" ++ fv)) = .error (.net u) →
      update_forge mcv fv dl inst ex sl = .error (.net u))
    ∧ (∀ u e2, dl (forge_installer_url (mcv ++ "-" ++ fv)) = .error (.http 404 u) →
      dl (forge_installer_url (mcv ++ "-" ++ fv ++ "-" ++ mcv)) = .error e2 →
      update_forge mcv fv dl inst ex sl = .error e2) := by
  refine ⟨?_, ?_, ?_, ?_, ?_⟩
  · intro name h1 h2
    simp [update_forge, h1, h2, Except.map]
  · intro u name h1 h2 h3
    simp [update_forge, h1, h2, h3, Except.map]
  · intro code u hcode h1
    simp [update_forge, h1, bne_iff_ne, hcode]
  · intro u h1
    simp [update_forge, h1]
  · intro u e2 h1 h2
    simp [update_forge, h1, h2]

theorem c8_forge_fallback_witness :
    (update_forge "1.7.10" "10.13.4.1614" c8dl c8inst false none).map
        ForgeTrace.invocations
      = .ok ["forge-1.7.10-10.13.4.1614-1.7.10-installer.jar"] :=
  (c8_forge_fallback "1.7.10" "10.13.4.1614" c8dl c8inst false none).2.1
    (forge_installer_url ("1.7.10" ++ "-" ++ "10.13.4.1614"))
    "forge-1.7.10-10.13.4.1614-1.7.10-installer.jar" rfl rfl rfl

